import Mathlib

/-!
Shallow embedding of the InboundForm repository (multi-step inbound request
form with a session-funnel analytics aggregator), together with proofs of the
specification claims.

Sources embedded:
- src/shared/schema.ts       : data model (tables form_submissions,
  form_sessions, form_analytics_events) and insertFormSubmissionSchema.
- src/unnamed/part_004       : DatabaseStorage (createSession, trackEvent,
  completeSession, getAnalytics).
- src/server/routes.ts       : route handlers (POST /api/form-submissions,
  the analytics endpoints, CSV export with escapeCSVField).
- src/unnamed/part_000       : the form wizard (allQuestions, view/next/back/
  submit event emission).

Timestamps are modelled as integer milliseconds, SQL numeric aggregation as
rationals, and nullable columns as Option.
-/

namespace InboundForm

/-- A row of the form_sessions table (src/shared/schema.ts lines 105-112):
sessionId (unique), startedAt, nullable completedAt, submissionId,
timeToComplete. -/
structure FormSessionRec where
  sessionId : String
  startedAt : Int
  completedAt : Option Int
  submissionId : Option String
  timeToComplete : Option Int
deriving Repr, DecidableEq

/-- A row of the form_analytics_events table (src/shared/schema.ts lines
118-124): sessionId (no uniqueness, no foreign key), step, eventType,
timestamp. -/
structure EventRec where
  sessionId : String
  step : Int
  eventType : String
  timestamp : Int
deriving Repr, DecidableEq

/-- A row of the form_submissions table (src/shared/schema.ts lines 57-64):
id, name, email, additionalInfo, submittedAt.  The table has no
referral-source column. -/
structure FormSubmissionRec where
  id : String
  name : String
  email : String
  additionalInfo : String
  submittedAt : Int
deriving Repr, DecidableEq

/-- The database state: the three tables used by the storage layer. -/
structure DB where
  submissions : List FormSubmissionRec
  sessions : List FormSessionRec
  events : List EventRec
deriving Repr, DecidableEq

/-- The empty database. -/
def DB.empty : DB := ⟨[], [], []⟩

/-! ### getAnalytics (src/unnamed/part_004, lines 114-251) -/

/-- Embeds the dateFilter computation of getAnalytics: '7days' and '30days'
resolve to a lower-bound timestamp (now minus the period in milliseconds),
anything else to no filter. -/
def dateFilter (timePeriod : Option String) (now : Int) : Option Int :=
  if timePeriod = some "7days" then some (now - 7 * 24 * 60 * 60 * 1000)
  else if timePeriod = some "30days" then some (now - 30 * 24 * 60 * 60 * 1000)
  else none

/-- Whether a session row passes the optional startedAt >= dateFilter
condition (drizzle gte). -/
def sessionInWindow (df : Option Int) (s : FormSessionRec) : Bool :=
  match df with
  | none => true
  | some d => decide (d ≤ s.startedAt)

/-- The row count of the query for view events at a step: without a date
filter all matching event rows are counted; with a filter the events are
inner-joined to form_sessions on sessionId with startedAt >= filter, and the
join rows are counted (part_004 lines 163-186, no DISTINCT). -/
def stepViewRows (db : DB) (df : Option Int) (step : Int) : Nat :=
  match df with
  | none =>
      (db.events.filter (fun e => e.step == step && e.eventType == "view")).length
  | some d =>
      ((db.events.filter (fun e => e.step == step && e.eventType == "view")).map
        (fun e => (db.sessions.filter
          (fun s => s.sessionId == e.sessionId && decide (d ≤ s.startedAt))).length)).sum

/-- Count of sessions with non-null completedAt (within the window); used for
totalSubmissions and for step 2's continued count. -/
def completedCount (db : DB) (df : Option Int) : Nat :=
  (db.sessions.filter (fun s => sessionInWindow df s && s.completedAt.isSome)).length

/-- The list of timeToComplete values of in-window sessions where the column
is non-null; SQL AVG aggregates exactly these. -/
def ttcValues (db : DB) (df : Option Int) : List Int :=
  (db.sessions.filter (sessionInWindow df)).filterMap (·.timeToComplete)

/-- The AVG(time_to_complete) query result: null when no qualifying row
exists, otherwise the mean as an exact rational. -/
def avgTimeToComplete (db : DB) (df : Option Int) : Option ℚ :=
  if ttcValues db df = [] then none
  else some (((ttcValues db df).map (fun i => (i : ℚ))).sum / (ttcValues db df).length)

/-- JavaScript Math.round: round half toward positive infinity. -/
def jsRound (q : ℚ) : Int := ⌊q + 1 / 2⌋

/-- One entry of dropOffByStep. -/
structure DropOffEntry where
  step : Int
  viewed : Nat
  continued : Nat
  dropOffRate : ℚ
deriving Repr, DecidableEq

/-- The dropOffByStep entry for one step (part_004 lines 163-242): viewed is
the view-event row count at the step, continued is the view-event row count
at the next step for steps 0 and 1 and the completed-session count for step
2, and the rate is (viewed - continued) / viewed * 100 guarded by viewed > 0. -/
def dropOffEntry (db : DB) (df : Option Int) (step : Int) : DropOffEntry :=
  let viewed := stepViewRows db df step
  let continued := if step < 2 then stepViewRows db df (step + 1) else completedCount db df
  let dropOffRate : ℚ := if viewed > 0 then (((viewed : ℚ) - (continued : ℚ)) / (viewed : ℚ)) * 100 else 0
  ⟨step, viewed, continued, dropOffRate⟩

/-- The aggregate object returned by getAnalytics. -/
structure AnalyticsData where
  totalSessions : Nat
  totalSubmissions : Nat
  completionRate : ℚ
  averageTimeToComplete : Option Int
  dropOffByStep : List DropOffEntry
deriving Repr, DecidableEq

/-- Embeds DatabaseStorage.getAnalytics (part_004 lines 114-251).  The
averageTimeToComplete translation of `avg ? Math.round(avg) : null` maps a
null or zero average to null (zero is falsy) and otherwise rounds.  The
drop-off loop runs for steps 0, 1, 2. -/
def getAnalytics (db : DB) (timePeriod : Option String) (now : Int) : AnalyticsData :=
  let df := dateFilter timePeriod now
  let totalSessions := (db.sessions.filter (sessionInWindow df)).length
  let totalSubmissions := completedCount db df
  let completionRate : ℚ :=
    if totalSessions > 0 then ((totalSubmissions : ℚ) / (totalSessions : ℚ)) * 100 else 0
  let averageTimeToComplete : Option Int :=
    match avgTimeToComplete db df with
    | none => none
    | some a => if a = 0 then none else some (jsRound a)
  { totalSessions := totalSessions
    totalSubmissions := totalSubmissions
    completionRate := completionRate
    averageTimeToComplete := averageTimeToComplete
    dropOffByStep := [dropOffEntry db df 0, dropOffEntry db df 1, dropOffEntry db df 2] }

/-! ### Form-submission validation and routes (src/shared/schema.ts, src/server/routes.ts) -/

/-- A POST /api/form-submissions request body: the five fields the wizard
sends; absent keys are none. -/
structure SubmissionBody where
  name : Option String
  email : Option String
  referralSource : Option String
  referralSourceOther : Option String
  additionalInfo : Option String
deriving Repr, DecidableEq

/-- Modelled from the spec: the email-format check of zod's
z.string().email(), whose implementation lives in the zod library, not under
src/.  The spec calls for an "email-format check"; the repository's own
client-side notion (src/unnamed/part_000, validateField) accepts a string of
non-whitespace non-at characters, an at sign, then a domain containing a dot
with nonempty segments on both sides.  A character is whitespace here when it
is a space, tab, newline or carriage return. -/
def isEmailFormat (s : String) : Bool :=
  let cs := s.toList
  let noWs := cs.all (fun c => !(c == ' ' || c == '\t' || c == '\n' || c == '\r'))
  let local_ := cs.takeWhile (fun c => !(c == '@'))
  let domain := (cs.dropWhile (fun c => !(c == '@'))).drop 1
  noWs && cs.count '@' == 1 && !local_.isEmpty &&
    ((domain.drop 1).dropLast.contains '.')

/-- The result of insertFormSubmissionSchema.safeParse: the parsed data keeps
only name, email and additionalInfo (schema.ts lines 66-74; unknown keys such
as referralSource are stripped), or the list of issue messages. -/
structure InsertFormSubmission where
  name : String
  email : String
  additionalInfo : String
deriving Repr, DecidableEq

/-- One zod field check: a missing key yields the Required issue, a present
value failing its refinement yields the schema's custom message. -/
def zodCheck (v : Option String) (ok : String → Bool) (msg : String) : Option String :=
  match v with
  | none => some "Required"
  | some s => if ok s then none else some msg

/-- The issue messages produced by insertFormSubmissionSchema on a body:
name must be a nonempty string, email must pass the email-format check,
additionalInfo must be nonempty (schema.ts lines 66-74, with the custom
messages given there). -/
def submissionIssues (b : SubmissionBody) : List String :=
  (zodCheck b.name (fun s => !s.isEmpty) "Name is required").toList ++
  (zodCheck b.email isEmailFormat "Please enter a valid email address").toList ++
  (zodCheck b.additionalInfo (fun s => !s.isEmpty)
    "Please provide some additional information").toList

/-- The response of a route: status code, optionally the created submission
record, and the validation issue messages of a 400. -/
structure SubmitResponse where
  status : Nat
  record : Option FormSubmissionRec
  issues : List String
deriving Repr, DecidableEq

/-- Embeds POST /api/form-submissions (routes.ts lines 144-162): validate
with insertFormSubmissionSchema; on failure respond 400 with the issues; on
success insert a record whose id is the database-generated identifier and
whose submittedAt is the insertion time, and respond 201 with that record. -/
def postFormSubmission (db : DB) (b : SubmissionBody) (genId : String) (now : Int) :
    SubmitResponse × DB :=
  let issues := submissionIssues b
  if issues.isEmpty then
    match b.name, b.email, b.additionalInfo with
    | some n, some e, some a =>
        let r : FormSubmissionRec := ⟨genId, n, e, a, now⟩
        (⟨201, some r, []⟩, { db with submissions := db.submissions ++ [r] })
    | _, _, _ => (⟨400, none, issues⟩, db)
  else (⟨400, none, issues⟩, db)

/-- A POST /api/analytics/session-start body. -/
structure SessionStartBody where
  sessionId : Option String
deriving Repr, DecidableEq

/-- A POST /api/analytics/event body. -/
structure EventBody where
  sessionId : Option String
  step : Option Int
  eventType : Option String
deriving Repr, DecidableEq

/-- A PATCH /api/analytics/session-complete body. -/
structure CompleteBody where
  sessionId : Option String
  submissionId : Option String
  timeToComplete : Option Int
deriving Repr, DecidableEq

/-- JavaScript truthiness of an optional string request field: `!x` holds
when the key is absent (undefined or null) or the value is the empty
string. -/
def strFalsy : Option String → Bool
  | none => true
  | some s => s.isEmpty

/-- Embeds POST /api/analytics/session-start (routes.ts lines 176-190):
`!sessionId` yields 400; otherwise the session is inserted.  The sessionId
column is unique, so inserting a duplicate throws and the handler answers
500 leaving the database unchanged. -/
def sessionStartRoute (db : DB) (b : SessionStartBody) (now : Int) : Nat × DB :=
  if strFalsy b.sessionId then (400, db)
  else
    match b.sessionId with
    | none => (400, db)
    | some sid =>
        if db.sessions.any (fun s => s.sessionId == sid) then (500, db)
        else (201, { db with sessions := db.sessions ++ [⟨sid, now, none, none, none⟩] })

/-- Embeds POST /api/analytics/event (routes.ts lines 192-206):
`!sessionId || step === undefined || !eventType` yields 400; otherwise the
event row is appended (the events table has no constraints beyond NOT
NULL). -/
def trackEventRoute (db : DB) (b : EventBody) (now : Int) : Nat × DB :=
  if strFalsy b.sessionId || b.step.isNone || strFalsy b.eventType then (400, db)
  else
    match b.sessionId, b.step, b.eventType with
    | some sid, some st, some et =>
        (201, { db with events := db.events ++ [⟨sid, st, et, now⟩] })
    | _, _, _ => (400, db)

/-- Embeds PATCH /api/analytics/session-complete (routes.ts lines 208-222
with completeSession, part_004 lines 101-112):
`!sessionId || !submissionId || timeToComplete === undefined` yields 400;
otherwise every session row matching sessionId gets completedAt = now,
submissionId and timeToComplete set.  When a row is updated to a
submissionId absent from form_submissions the foreign key throws and the
handler answers 500 leaving the database unchanged. -/
def completeSessionRoute (db : DB) (b : CompleteBody) (now : Int) : Nat × DB :=
  if strFalsy b.sessionId || strFalsy b.submissionId || b.timeToComplete.isNone then (400, db)
  else
    match b.sessionId, b.submissionId, b.timeToComplete with
    | some sid, some subId, some ttc =>
        if db.sessions.any (fun s => s.sessionId == sid) &&
            !(db.submissions.any (fun r => r.id == subId)) then (500, db)
        else
          (200, { db with sessions := db.sessions.map (fun s =>
            if s.sessionId == sid then
              { s with completedAt := some now, submissionId := some subId,
                       timeToComplete := some ttc }
            else s) })
    | _, _, _ => (400, db)

/-! ### Reachable store states -/

/-- One write request against the store, as issued through the public API. -/
inductive Op where
  | submit (b : SubmissionBody) (genId : String) (now : Int)
  | start (b : SessionStartBody) (now : Int)
  | event (b : EventBody) (now : Int)
  | complete (b : CompleteBody) (now : Int)
deriving Repr, DecidableEq

/-- The state after one request (responses discarded). -/
def applyOp (db : DB) : Op → DB
  | Op.submit b genId now => (postFormSubmission db b genId now).2
  | Op.start b now => (sessionStartRoute db b now).2
  | Op.event b now => (trackEventRoute db b now).2
  | Op.complete b now => (completeSessionRoute db b now).2

/-- The store state reached by a sequence of requests from the empty
database. -/
def runOps (ops : List Op) : DB := ops.foldl applyOp DB.empty

/-! ### The form wizard (src/unnamed/part_000) -/

/-- One question of the wizard. -/
structure Question where
  id : String
  qtype : String
  options : List String
deriving Repr, DecidableEq

/-- The allQuestions array of the wizard (part_000 lines 156-186): four
questions — name, email, referralSource (a select with four options) and
additionalInfo. -/
def allQuestions : List Question :=
  [⟨"name", "text", []⟩,
   ⟨"email", "email", []⟩,
   ⟨"referralSource", "select", ["Google", "Friend", "Social Media", "Other"]⟩,
   ⟨"additionalInfo", "textarea", []⟩]

/-- A navigation action of a wizard user. -/
inductive Move where
  | next
  | back
deriving Repr, DecidableEq

/-- One wizard navigation step for a session, on a (current step, emitted
events) pair.  goToNext on a valid field emits a next event at the current
step and, below the final question, advances — the currentStep effect fires
a view event at the new step; on the final question it emits the submit
event instead.  goToPrevious above step 0 emits a back event and the view
event of the previous step (part_000 lines 290-336). -/
def wizMove (sid : String) (st : Int × List EventRec) (m : Move) : Int × List EventRec :=
  match m with
  | Move.next =>
      if st.1 < 3 then
        (st.1 + 1, st.2 ++ [⟨sid, st.1, "next", 0⟩, ⟨sid, st.1 + 1, "view", 0⟩])
      else
        (st.1, st.2 ++ [⟨sid, st.1, "next", 0⟩, ⟨sid, st.1, "submit", 0⟩])
  | Move.back =>
      if st.1 > 0 then
        (st.1 - 1, st.2 ++ [⟨sid, st.1, "back", 0⟩, ⟨sid, st.1 - 1, "view", 0⟩])
      else st

/-- The analytics events a wizard session emits along a list of moves: the
mount fires a view of step 0, then each move contributes as in wizMove. -/
def wizardEvents (sid : String) (moves : List Move) : List EventRec :=
  (moves.foldl (wizMove sid) (0, [⟨sid, 0, "view", 0⟩])).2

/-! ### CSV export (src/server/routes.ts lines 236-291) -/

/-- Replace every double-quote character by two of them, like
value.replace with the global quote pattern in escapeCSVField. -/
def doubleQuotes : List Char → List Char
  | [] => []
  | c :: cs => if c = '"' then '"' :: '"' :: doubleQuotes cs else c :: doubleQuotes cs

/-- Whether escapeCSVField wraps the value: it contains a comma, a quote, a
line feed or a carriage return (routes.ts line 243). -/
def needsQuoting (cs : List Char) : Bool :=
  cs.any (fun c => c == ',' || c == '"' || c == '\n' || c == '\r')

/-- Embeds escapeCSVField (routes.ts lines 241-247): a null or undefined
field becomes the empty string; a value containing a comma, quote, line feed
or carriage return is wrapped in quotes with every embedded quote doubled;
any other value passes through unchanged. -/
def escapeCSVField (field : Option String) : String :=
  if needsQuoting (field.getD "").toList then
    String.mk ('"' :: doubleQuotes (field.getD "").toList ++ ['"'])
  else field.getD ""

/-- Embeds row.join with a comma separator (routes.ts lines 264 and 276). -/
def joinRow : List String → String
  | [] => ""
  | [f] => f
  | f :: g :: t => f ++ "," ++ joinRow (g :: t)

/-- Reads one quoted CSV field body per RFC 4180, after the opening quote:
two consecutive quotes stand for one literal quote, a single quote closes the
field; returns the field content and the characters after the closing
quote. -/
def readQuoted : List Char → List Char × List Char
  | [] => ([], [])
  | c :: rest =>
      if c = '"' then
        match rest with
        | [] => ([], [])
        | d :: rest2 =>
            if d = '"' then ('"' :: (readQuoted rest2).1, (readQuoted rest2).2)
            else ([], d :: rest2)
      else
        (c :: (readQuoted rest).1, (readQuoted rest).2)

/-- Reads one unquoted CSV field: everything up to the next comma; returns
the field content and the rest beginning at the comma. -/
def readUnquoted : List Char → List Char × List Char
  | [] => ([], [])
  | c :: rest =>
      if c = ',' then ([], c :: rest)
      else (c :: (readUnquoted rest).1, (readUnquoted rest).2)

theorem readQuoted_nil : readQuoted [] = ([], []) := rfl

theorem readQuoted_single_quote : readQuoted ['"'] = ([], []) := by
  simp [readQuoted]

theorem readQuoted_qq (rest : List Char) :
    readQuoted ('"' :: '"' :: rest) = ('"' :: (readQuoted rest).1, (readQuoted rest).2) := by
  simp [readQuoted]

theorem readQuoted_q_other (d : Char) (rest : List Char) (h : d ≠ '"') :
    readQuoted ('"' :: d :: rest) = ([], d :: rest) := by
  simp [readQuoted, h]

theorem readQuoted_other (c : Char) (rest : List Char) (h : c ≠ '"') :
    readQuoted (c :: rest) = (c :: (readQuoted rest).1, (readQuoted rest).2) := by
  rw [readQuoted.eq_def]
  simp [h]

theorem readQuoted_rest_le : (cs : List Char) → (readQuoted cs).2.length ≤ cs.length
  | [] => by rw [readQuoted_nil]
  | c :: rest => by
      by_cases hc : c = '"'
      · subst hc
        match rest with
        | [] => simp [readQuoted_single_quote]
        | d :: rest2 =>
            by_cases hd : d = '"'
            · subst hd
              have ih := readQuoted_rest_le rest2
              rw [readQuoted_qq]
              simp only [List.length_cons]
              omega
            · rw [readQuoted_q_other d rest2 hd]
              simp
      · have ih := readQuoted_rest_le rest
        rw [readQuoted_other c rest hc]
        simp only [List.length_cons]
        omega
termination_by cs => cs.length

theorem readUnquoted_rest_le : (cs : List Char) → (readUnquoted cs).2.length ≤ cs.length
  | [] => by simp [readUnquoted]
  | c :: rest => by
      by_cases hc : c = ','
      · simp [readUnquoted, hc]
      · have ih := readUnquoted_rest_le rest
        simp only [readUnquoted, if_neg hc, List.length_cons]
        omega

/-- Splits one CSV record into its fields per RFC 4180: a field starting
with a quote is read with readQuoted, any other with readUnquoted; a comma
after the field separates the next field. -/
def parseFields (cs : List Char) : List (List Char) :=
  if cs.head? = some '"' then
    if (readQuoted cs.tail).2.head? = some ',' then
      (readQuoted cs.tail).1 :: parseFields (readQuoted cs.tail).2.tail
    else [(readQuoted cs.tail).1]
  else
    if (readUnquoted cs).2.head? = some ',' then
      (readUnquoted cs).1 :: parseFields (readUnquoted cs).2.tail
    else [(readUnquoted cs).1]
termination_by cs.length
decreasing_by
  · have h1 : (readQuoted cs.tail).2.length ≤ cs.tail.length := readQuoted_rest_le _
    have h2 : cs.tail.length ≤ cs.length := by
      cases cs <;> simp
    have h3 : 0 < (readQuoted cs.tail).2.length := by
      cases hq : (readQuoted cs.tail).2 <;> simp_all
    rw [List.length_tail]
    omega
  · have h1 : (readUnquoted cs).2.length ≤ cs.length := readUnquoted_rest_le _
    have h3 : 0 < (readUnquoted cs).2.length := by
      cases hq : (readUnquoted cs).2 <;> simp_all
    rw [List.length_tail]
    omega

/-- Parses one CSV record into its field strings. -/
def parseCSVRow (s : String) : List String :=
  (parseFields s.toList).map String.mk

/-- The char-level escape underlying escapeCSVField. -/
def charEscape (cs : List Char) : List Char :=
  if needsQuoting cs then '"' :: doubleQuotes cs ++ ['"'] else cs

/-- The char-level comma join underlying joinRow. -/
def charJoin : List (List Char) → List Char
  | [] => []
  | [f] => f
  | f :: g :: t => f ++ ',' :: charJoin (g :: t)

/-! ### Spec-side reformulations used to compare code and spec -/

/-- Whether the session of an event passes the window condition: no filter
accepts every event, a filter accepts events whose sessionId has an
in-window session row (the effect of the inner join). -/
def matchWindowB (db : DB) (df : Option Int) (sid : String) : Bool :=
  match df with
  | none => true
  | some d => db.sessions.any (fun s => s.sessionId == sid && decide (d ≤ s.startedAt))

/-- The number of view events recorded at a step whose session passes the
window condition (each event counted once). -/
def viewEventCount (db : DB) (df : Option Int) (step : Int) : Nat :=
  (db.events.filter
    (fun e => e.step == step && e.eventType == "view" && matchWindowB db df e.sessionId)).length

/-- Follows the spec's words for dropOffByStep.viewed: the count of DISTINCT
sessions having a view event at the step within the window — a session
viewing the step several times is counted once.  Stated for comparison with
the row count the code computes. -/
def distinctViewedSessions (db : DB) (df : Option Int) (step : Int) : Nat :=
  (((db.events.filter
    (fun e => e.step == step && e.eventType == "view" && matchWindowB db df e.sessionId)).map
      (·.sessionId)).dedup).length

/-! ### Concrete example states -/

/-- A database with one session that emitted two view events at step 0. -/
def reViewDB : DB :=
  ⟨[], [⟨"s1", 0, none, none, none⟩], [⟨"s1", 0, "view", 0⟩, ⟨"s1", 0, "view", 1⟩]⟩

/-- A database whose events are exactly those a wizard session emits along
the moves next, next, back: the user reaches step 2 and navigates back to
step 1, re-viewing it. -/
def wizardBackDB : DB :=
  ⟨[], [⟨"s1", 0, none, none, none⟩], wizardEvents "s1" [Move.next, Move.next, Move.back]⟩

/-- A database with one completed session whose timeToComplete is 0. -/
def zeroTtcDB : DB := ⟨[], [⟨"s1", 0, some 5, some "x", some 0⟩], []⟩

/-- A database with two completed sessions whose timeToComplete values are 1
and 2, so the mean is 3/2. -/
def halfTtcDB : DB :=
  ⟨[], [⟨"s1", 0, some 5, some "x", some 1⟩, ⟨"s2", 0, some 6, some "y", some 2⟩], []⟩

/-- A valid submission body choosing the referral source Google. -/
def googleBody : SubmissionBody :=
  ⟨some "Ada", some "ada@example.com", some "Google", none, some "Interested in a demo"⟩

/-- The same submission body with referral source Friend instead. -/
def friendBody : SubmissionBody :=
  ⟨some "Ada", some "ada@example.com", some "Friend", none, some "Interested in a demo"⟩

/-- A valid submission body used as a witness input. -/
def okBody : SubmissionBody := ⟨some "Ada", some "ada@ex.co", none, none, some "hi"⟩

/-- A submission body whose email is the literal string not-an-email. -/
def badEmailBody : SubmissionBody := ⟨some "Ada", some "not-an-email", none, none, some "hi"⟩

/-- Requests creating two submissions, a session, and completing the session
against the first submission. -/
def completeOnceOps : List Op :=
  [Op.submit okBody "sub1" 0, Op.submit okBody "sub2" 0,
   Op.start ⟨some "s"⟩ 0, Op.complete ⟨some "s", some "sub1", some 5⟩ 1]

/-- The same requests followed by a second session-complete call naming the
second submission. -/
def completeTwiceOps : List Op :=
  completeOnceOps ++ [Op.complete ⟨some "s", some "sub2", some 7⟩ 2]

/-! ### Projection lemmas for getAnalytics -/

theorem getAnalytics_totalSessions (db : DB) (p : Option String) (n : Int) :
    (getAnalytics db p n).totalSessions =
      (db.sessions.filter (sessionInWindow (dateFilter p n))).length := rfl

theorem getAnalytics_totalSubmissions (db : DB) (p : Option String) (n : Int) :
    (getAnalytics db p n).totalSubmissions = completedCount db (dateFilter p n) := rfl

theorem getAnalytics_completionRate (db : DB) (p : Option String) (n : Int) :
    (getAnalytics db p n).completionRate =
      if (getAnalytics db p n).totalSessions > 0 then
        ((getAnalytics db p n).totalSubmissions : ℚ) /
          ((getAnalytics db p n).totalSessions : ℚ) * 100
      else 0 := rfl

theorem getAnalytics_averageTime (db : DB) (p : Option String) (n : Int) :
    (getAnalytics db p n).averageTimeToComplete =
      match avgTimeToComplete db (dateFilter p n) with
      | none => none
      | some a => if a = 0 then none else some (jsRound a) := rfl

theorem getAnalytics_dropOff (db : DB) (p : Option String) (n : Int) :
    (getAnalytics db p n).dropOffByStep =
      [dropOffEntry db (dateFilter p n) 0, dropOffEntry db (dateFilter p n) 1,
       dropOffEntry db (dateFilter p n) 2] := rfl

theorem dropOffEntry_step (db : DB) (df : Option Int) (st : Int) :
    (dropOffEntry db df st).step = st := rfl

theorem dropOffEntry_viewed (db : DB) (df : Option Int) (st : Int) :
    (dropOffEntry db df st).viewed = stepViewRows db df st := rfl

theorem dropOffEntry_rate (db : DB) (df : Option Int) (st : Int) :
    (dropOffEntry db df st).dropOffRate =
      if stepViewRows db df st > 0 then
        (((stepViewRows db df st : ℚ) - ((dropOffEntry db df st).continued : ℚ)) /
          (stepViewRows db df st : ℚ)) * 100
      else 0 := rfl

/-! ### Claim C5 -/

/-- Claim C5: for every data state and time window, completionRate equals
totalSubmissions / totalSessions × 100 when totalSessions > 0, equals 0 when
totalSessions is 0, and the division is guarded so the computation never
divides by zero. -/
theorem claim_C5_completionRate (db : DB) (p : Option String) (n : Int) :
    ((getAnalytics db p n).totalSessions = 0 → (getAnalytics db p n).completionRate = 0) ∧
    (0 < (getAnalytics db p n).totalSessions →
      (getAnalytics db p n).completionRate =
        ((getAnalytics db p n).totalSubmissions : ℚ) /
          ((getAnalytics db p n).totalSessions : ℚ) * 100) := by
  constructor
  · intro h
    rw [getAnalytics_completionRate, h]
    simp
  · intro h
    rw [getAnalytics_completionRate, if_pos h]

/-- Witness for C5 at a database with two sessions, one completed: the rate
is 50. -/
theorem claim_C5_witness :
    (getAnalytics (DB.mk [] [⟨"a", 0, some 1, some "x", some 1⟩, ⟨"b", 0, none, none, none⟩] [])
      none 0).completionRate = 50 := by
  rw [(claim_C5_completionRate
    (DB.mk [] [⟨"a", 0, some 1, some "x", some 1⟩, ⟨"b", 0, none, none, none⟩] [])
    none 0).2 (by decide),
    show (getAnalytics (DB.mk [] [⟨"a", 0, some 1, some "x", some 1⟩, ⟨"b", 0, none, none, none⟩] [])
      none 0).totalSessions = 2 from by decide,
    show (getAnalytics (DB.mk [] [⟨"a", 0, some 1, some "x", some 1⟩, ⟨"b", 0, none, none, none⟩] [])
      none 0).totalSubmissions = 1 from by decide]
  norm_num

/-! ### Claim C10 -/

/-- Claim C10: for every data state and time period, dropOffByStep has
exactly three entries with step indices 0, 1, 2 in order, although the form
wizard presents four questions. -/
theorem claim_C10_three_steps (db : DB) (p : Option String) (n : Int) :
    (getAnalytics db p n).dropOffByStep.map (·.step) = [0, 1, 2] ∧
    allQuestions.length = 4 := by
  constructor
  · rw [getAnalytics_dropOff]
    simp [dropOffEntry_step]
  · rfl

/-! ### Claim C3 -/

/-- Claim C3 (code bug): the referral source sent with a submission is not
persisted: the insert schema strips it and the table has no referral
column, so two requests differing only in referralSource produce the same
201 response and the same stored record, which carries no referral source.
Evaluated at the failing input googleBody. -/
theorem claim_C3_referral_dropped :
    (postFormSubmission DB.empty googleBody "id-1" 0).1.status = 201 ∧
    (postFormSubmission DB.empty googleBody "id-1" 0) =
      (postFormSubmission DB.empty friendBody "id-1" 0) ∧
    (postFormSubmission DB.empty googleBody "id-1" 0).1.record =
      some ⟨"id-1", "Ada", "ada@example.com", "Interested in a demo", 0⟩ ∧
    googleBody.referralSource ≠ friendBody.referralSource := by
  refine ⟨by decide, by decide, by decide, by decide⟩

/-! ### Claim C7 -/

/-- Claim C7: POST /api/form-submissions answers 201 with a record carrying
the generated identifier for every body with a nonempty name, an email
passing the email-format check, and nonempty additional info; and a body
whose email is not-an-email always gets 400 with the email-specific
message. -/
theorem claim_C7_submission_validation (db : DB) (b : SubmissionBody) (genId : String) (now : Int) :
    (∀ nm em ai, b.name = some nm → nm ≠ "" → b.email = some em → isEmailFormat em = true →
      b.additionalInfo = some ai → ai ≠ "" →
        (postFormSubmission db b genId now).1.status = 201 ∧
        (postFormSubmission db b genId now).1.record = some ⟨genId, nm, em, ai, now⟩) ∧
    (b.email = some "not-an-email" →
        (postFormSubmission db b genId now).1.status = 400 ∧
        "Please enter a valid email address" ∈ (postFormSubmission db b genId now).1.issues) := by
  constructor
  · intro nm em ai hnm hnm0 hem hef hai hai0
    have hnm1 : nm.isEmpty = false := by
      rcases h : nm.isEmpty with _ | _
      · rfl
      · exact absurd ((String.isEmpty_iff nm).mp h) hnm0
    have hai1 : ai.isEmpty = false := by
      rcases h : ai.isEmpty with _ | _
      · rfl
      · exact absurd ((String.isEmpty_iff ai).mp h) hai0
    have hiss : submissionIssues b = [] := by
      simp [submissionIssues, zodCheck, hnm, hem, hai, hnm1, hai1, hef]
    simp [postFormSubmission, hiss, hnm, hem, hai]
  · intro hem
    have hef : isEmailFormat "not-an-email" = false := by decide
    have hiss : submissionIssues b =
        (zodCheck b.name (fun s => !s.isEmpty) "Name is required").toList ++
          "Please enter a valid email address" ::
            (zodCheck b.additionalInfo (fun s => !s.isEmpty)
              "Please provide some additional information").toList := by
      simp [submissionIssues, zodCheck, hem, hef]
    have hne : (submissionIssues b).isEmpty = false := by
      rw [hiss]
      rcases (zodCheck b.name (fun s => !s.isEmpty) "Name is required").toList with _ | ⟨x, xs⟩ <;>
        rfl
    constructor
    · simp [postFormSubmission, hne]
    · simp only [postFormSubmission, hne, Bool.false_eq_true, if_false]
      rw [hiss]
      exact List.mem_append_right _ (List.mem_cons_self _ _)

/-- Witness for C7: okBody yields 201 with the generated id, badEmailBody
yields 400 with the email message. -/
theorem claim_C7_witness :
    ((postFormSubmission DB.empty okBody "g1" 0).1.status = 201 ∧
      (postFormSubmission DB.empty okBody "g1" 0).1.record =
        some ⟨"g1", "Ada", "ada@ex.co", "hi", 0⟩) ∧
    ((postFormSubmission DB.empty badEmailBody "g1" 0).1.status = 400 ∧
      "Please enter a valid email address" ∈
        (postFormSubmission DB.empty badEmailBody "g1" 0).1.issues) :=
  ⟨(claim_C7_submission_validation DB.empty okBody "g1" 0).1 "Ada" "ada@ex.co" "hi"
      rfl (by decide) rfl (by decide) rfl (by decide),
   (claim_C7_submission_validation DB.empty badEmailBody "g1" 0).2 rfl⟩

/-! ### Claim C8 -/

/-- The original C8 fails: a request to the event endpoint with every
required field present — sessionId supplied as the empty string, step 0,
eventType view — is still rejected with 400, because the handler tests
truthiness rather than presence. -/
theorem claim_C8_counterexample :
    (EventBody.mk (some "") (some 0) (some "view")).sessionId.isSome = true ∧
    (EventBody.mk (some "") (some 0) (some "view")).step.isSome = true ∧
    (EventBody.mk (some "") (some 0) (some "view")).eventType.isSome = true ∧
    (trackEventRoute DB.empty (EventBody.mk (some "") (some 0) (some "view")) 0).1 = 400 := by
  refine ⟨rfl, rfl, rfl, by decide⟩

/-- Claim C8 as amended: omitting a required field on any of the three
analytics endpoints yields 400; and a request whose required fields are all
present with nonempty string values — step or timeToComplete may be 0 — is
not rejected with 400 (string fields supplied as the empty string count as
missing). -/
theorem claim_C8_required_fields :
    (∀ db b now, b.sessionId = none → (sessionStartRoute db b now).1 = 400) ∧
    (∀ db b now, b.sessionId = none ∨ b.step = none ∨ b.eventType = none →
      (trackEventRoute db b now).1 = 400) ∧
    (∀ db b now, b.sessionId = none ∨ b.submissionId = none ∨ b.timeToComplete = none →
      (completeSessionRoute db b now).1 = 400) ∧
    (∀ db now sid, sid ≠ "" → (sessionStartRoute db ⟨some sid⟩ now).1 ≠ 400) ∧
    (∀ db now sid st et, sid ≠ "" → et ≠ "" →
      (trackEventRoute db ⟨some sid, some st, some et⟩ now).1 = 201) ∧
    (∀ db now sid subId ttc, sid ≠ "" → subId ≠ "" →
      (completeSessionRoute db ⟨some sid, some subId, some ttc⟩ now).1 ≠ 400) := by
  have hstr : ∀ s : String, s ≠ "" → s.isEmpty = false := by
    intro s hs
    rcases h : s.isEmpty with _ | _
    · rfl
    · exact absurd ((String.isEmpty_iff s).mp h) hs
  refine ⟨?_, ?_, ?_, ?_, ?_, ?_⟩
  · intro db b now h
    simp [sessionStartRoute, strFalsy, h]
  · intro db b now h
    rcases h with h | h | h <;> simp [trackEventRoute, strFalsy, h]
  · intro db b now h
    rcases h with h | h | h <;> simp [completeSessionRoute, strFalsy, h]
  · intro db now sid hsid
    simp only [sessionStartRoute, strFalsy, hstr sid hsid, Bool.false_eq_true, if_false]
    split <;> simp
  · intro db now sid st et hsid het
    simp [trackEventRoute, strFalsy, hstr sid hsid, hstr et het]
  · intro db now sid subId ttc hsid hsub
    simp only [completeSessionRoute, strFalsy, hstr sid hsid, hstr subId hsub,
      Option.isNone_some, Bool.or_self, Bool.or_false, Bool.false_eq_true, if_false]
    split <;> simp

/-- Witness for C8 at concrete requests: each missing field yields 400, and
present nonempty fields (with step 0 and timeToComplete 0) are accepted. -/
theorem claim_C8_witness :
    (sessionStartRoute DB.empty ⟨none⟩ 0).1 = 400 ∧
    (trackEventRoute DB.empty ⟨some "s", none, some "view"⟩ 0).1 = 400 ∧
    (completeSessionRoute DB.empty ⟨some "s", some "x", none⟩ 0).1 = 400 ∧
    (sessionStartRoute DB.empty ⟨some "s"⟩ 0).1 ≠ 400 ∧
    (trackEventRoute DB.empty ⟨some "s", some 0, some "view"⟩ 0).1 = 201 ∧
    (completeSessionRoute DB.empty ⟨some "s", some "x", some 0⟩ 0).1 ≠ 400 :=
  ⟨claim_C8_required_fields.1 DB.empty ⟨none⟩ 0 rfl,
   claim_C8_required_fields.2.1 DB.empty ⟨some "s", none, some "view"⟩ 0 (Or.inr (Or.inl rfl)),
   claim_C8_required_fields.2.2.1 DB.empty ⟨some "s", some "x", none⟩ 0
     (Or.inr (Or.inr rfl)),
   claim_C8_required_fields.2.2.2.1 DB.empty 0 "s" (by decide),
   claim_C8_required_fields.2.2.2.2.1 DB.empty 0 "s" 0 "view" (by decide) (by decide),
   claim_C8_required_fields.2.2.2.2.2 DB.empty 0 "s" "x" 0 (by decide) (by decide)⟩

/-! ### Claim C9 -/

/-- The completedAt and submissionId columns of every session row are null
together or non-null together. -/
def sessionsTogether (db : DB) : Prop :=
  ∀ s ∈ db.sessions, s.completedAt.isSome = s.submissionId.isSome

theorem postFormSubmission_sessions (db : DB) (b : SubmissionBody) (g : String) (n : Int) :
    (postFormSubmission db b g n).2.sessions = db.sessions := by
  rcases h : (submissionIssues b).isEmpty <;>
    simp only [postFormSubmission, h, Bool.false_eq_true, if_false, if_true] <;>
    rcases b.name with _ | nm <;> rcases b.email with _ | em <;>
    rcases b.additionalInfo with _ | ai <;> rfl

theorem applyOp_together (db : DB) (op : Op) (hdb : sessionsTogether db) :
    sessionsTogether (applyOp db op) := by
  cases op with
  | submit b g n =>
      intro s hs
      rw [applyOp, postFormSubmission_sessions] at hs
      exact hdb s hs
  | start b n =>
      intro s hs
      rw [applyOp, sessionStartRoute] at hs
      split at hs
      · exact hdb s hs
      · rcases hb : b.sessionId with _ | sid
        · rw [hb] at hs
          exact hdb s hs
        · rw [hb] at hs
          simp only at hs
          split at hs
          · exact hdb s hs
          · simp only [List.mem_append, List.mem_singleton] at hs
            rcases hs with hs | hs
            · exact hdb s hs
            · subst hs; rfl
  | event b n =>
      intro s hs
      rw [applyOp, trackEventRoute] at hs
      split at hs
      · exact hdb s hs
      · rcases hb1 : b.sessionId with _ | sid <;> rw [hb1] at hs
        · exact hdb s hs
        · rcases hb2 : b.step with _ | st <;> rw [hb2] at hs
          · exact hdb s hs
          · rcases hb3 : b.eventType with _ | et <;> rw [hb3] at hs
            · exact hdb s hs
            · exact hdb s hs
  | complete b n =>
      intro s hs
      rw [applyOp, completeSessionRoute] at hs
      split at hs
      · exact hdb s hs
      · rcases hb1 : b.sessionId with _ | sid <;> rw [hb1] at hs
        · exact hdb s hs
        · rcases hb2 : b.submissionId with _ | subId <;> rw [hb2] at hs
          · exact hdb s hs
          · rcases hb3 : b.timeToComplete with _ | ttc <;> rw [hb3] at hs
            · exact hdb s hs
            · simp only at hs
              split at hs
              · exact hdb s hs
              · simp only [List.mem_map] at hs
                rcases hs with ⟨t, ht, hts⟩
                subst hts
                split
                · rfl
                · exact hdb t ht

theorem runOps_together : ∀ (ops : List Op) (db : DB), sessionsTogether db →
    sessionsTogether (ops.foldl applyOp db)
  | [], db, h => h
  | op :: ops, db, h => runOps_together ops (applyOp db op) (applyOp_together db op h)

/-- Claim C9 as amended: in every store state reachable through the public
API from the empty database, a session's completedAt and submissionId are
null together or non-null together.  (They are not set exactly once: see the
counterexample.) -/
theorem claim_C9_set_together (ops : List Op) :
    ∀ s ∈ (runOps ops).sessions, s.completedAt.isSome = s.submissionId.isSome :=
  runOps_together ops DB.empty (by intro s hs; cases hs)

/-- Witness for C9 after a single session-start request. -/
theorem claim_C9_witness :
    (FormSessionRec.mk "s" 0 none none none) ∈ (runOps [Op.start ⟨some "s"⟩ 0]).sessions ∧
    (FormSessionRec.mk "s" 0 none none none).completedAt.isSome =
      (FormSessionRec.mk "s" 0 none none none).submissionId.isSome :=
  ⟨by decide, claim_C9_set_together [Op.start ⟨some "s"⟩ 0] ⟨"s", 0, none, none, none⟩ (by decide)⟩

/-- The original C9 fails its exactly-once half: after completing session s
against submission sub1, a second session-complete request changes
completedAt and submissionId again. -/
theorem claim_C9_counterexample :
    (runOps completeOnceOps).sessions = [⟨"s", 0, some 1, some "sub1", some 5⟩] ∧
    (runOps completeTwiceOps).sessions = [⟨"s", 0, some 2, some "sub2", some 7⟩] ∧
    (some "sub1" : Option String) ≠ some "sub2" ∧
    (some (1 : Int) : Option Int) ≠ some 2 := by
  refine ⟨by decide, by decide, by decide, by decide⟩

/-! ### Claim C1 -/

theorem sum_map_boole {α : Type} (l : List α) (p : α → Bool) :
    (l.map (fun a => if p a then 1 else 0)).sum = (l.filter p).length := by
  induction l with
  | nil => rfl
  | cons a t ih => by_cases h : p a <;> simp [List.filter_cons, h, ih] <;> omega

theorem stepViewRows_none (db : DB) (st : Int) :
    stepViewRows db none st =
      (db.events.filter (fun e => e.step == st && e.eventType == "view")).length := rfl

theorem stepViewRows_some (db : DB) (d : Int) (st : Int) :
    stepViewRows db (some d) st =
      ((db.events.filter (fun e => e.step == st && e.eventType == "view")).map
        (fun e => (db.sessions.filter
          (fun s => s.sessionId == e.sessionId && decide (d ≤ s.startedAt))).length)).sum := rfl

theorem matchWindowB_none (db : DB) (sid : String) : matchWindowB db none sid = true := rfl

theorem matchWindowB_some (db : DB) (d : Int) (sid : String) :
    matchWindowB db (some d) sid =
      db.sessions.any (fun s => s.sessionId == sid && decide (d ≤ s.startedAt)) := rfl

theorem filter_key_count (l : List FormSessionRec)
    (hnd : (l.map (·.sessionId)).Nodup) (sid : String) (w : FormSessionRec → Bool) :
    (l.filter (fun s => s.sessionId == sid && w s)).length =
      if l.any (fun s => s.sessionId == sid && w s) then 1 else 0 := by
  induction l with
  | nil => rfl
  | cons a t ih =>
      rw [List.map_cons, List.nodup_cons] at hnd
      obtain ⟨hna, hnt⟩ := hnd
      by_cases ha : a.sessionId = sid
      · have hkey : ∀ x ∈ t, ¬((x.sessionId == sid && w x) = true) := by
          intro x hx hcon
          have hxs : x.sessionId = sid := by
            have := (Bool.and_eq_true _ _).mp hcon
            exact beq_iff_eq.mp this.1
          exact hna (ha ▸ hxs ▸ List.mem_map_of_mem (·.sessionId) hx)
        have htf : t.filter (fun s => s.sessionId == sid && w s) = [] :=
          List.filter_eq_nil_iff.mpr hkey
        have hta : t.any (fun s => s.sessionId == sid && w s) = false :=
          List.any_eq_false.mpr hkey
        by_cases hw : w a
        · simp [List.filter_cons, List.any_cons, ha, hw, htf, hta]
        · simp [List.filter_cons, List.any_cons, ha, hw, htf, hta]
      · have ha' : (a.sessionId == sid) = false := by simp [ha]
        simp [List.filter_cons, List.any_cons, ha', ih hnt]

theorem stepViewRows_eq_viewEventCount (db : DB) (df : Option Int) (st : Int)
    (hnd : (db.sessions.map (·.sessionId)).Nodup) :
    stepViewRows db df st = viewEventCount db df st := by
  cases df with
  | none =>
      rw [stepViewRows_none]
      unfold viewEventCount
      simp [matchWindowB_none]
  | some d =>
      rw [stepViewRows_some]
      unfold viewEventCount
      rw [List.map_congr_left
        (l := db.events.filter (fun e => e.step == st && e.eventType == "view"))
        (fun e _ =>
          filter_key_count db.sessions hnd e.sessionId (fun s => decide (d ≤ s.startedAt)))]
      rw [sum_map_boole, List.filter_filter]
      refine congrArg List.length (List.filter_congr ?_)
      intro e _
      rw [matchWindowB_some]
      cases (e.step == st) <;> cases (e.eventType == "view") <;>
        cases db.sessions.any (fun s => s.sessionId == e.sessionId &&
          decide (d ≤ s.startedAt)) <;> rfl

/-- Claim C1 as amended: each dropOffByStep entry's viewed equals the number
of view EVENTS at that step whose session passes the window condition — a
session that views the same step several times is counted once per event
(when sessionIds are unique, as the schema enforces). -/
theorem claim_C1_viewed_counts_events (db : DB) (p : Option String) (n : Int)
    (hnd : (db.sessions.map (·.sessionId)).Nodup) :
    (getAnalytics db p n).dropOffByStep.map (·.viewed) =
      [viewEventCount db (dateFilter p n) 0, viewEventCount db (dateFilter p n) 1,
       viewEventCount db (dateFilter p n) 2] := by
  rw [getAnalytics_dropOff]
  simp only [List.map_cons, List.map_nil, dropOffEntry_viewed]
  rw [stepViewRows_eq_viewEventCount db _ 0 hnd, stepViewRows_eq_viewEventCount db _ 1 hnd,
    stepViewRows_eq_viewEventCount db _ 2 hnd]

/-- Witness for C1 at the database where one session viewed step 0 twice. -/
theorem claim_C1_witness :
    (getAnalytics reViewDB none 0).dropOffByStep.map (·.viewed) =
      [viewEventCount reViewDB (dateFilter none 0) 0,
       viewEventCount reViewDB (dateFilter none 0) 1,
       viewEventCount reViewDB (dateFilter none 0) 2] :=
  claim_C1_viewed_counts_events reViewDB none 0 (by decide)

/-- The original C1 fails: with one session that emitted two view events at
step 0, the code reports viewed = 2 while the count of distinct sessions with
a view at step 0 is 1. -/
theorem claim_C1_counterexample :
    (getAnalytics reViewDB none 0).dropOffByStep.map (·.viewed) = [2, 0, 0] ∧
    distinctViewedSessions reViewDB none 0 = 1 ∧ (2 : Nat) ≠ 1 := by
  refine ⟨by decide, by decide, by decide⟩

/-! ### Claim C2 -/

theorem dropOffEntry_rate_le (db : DB) (df : Option Int) (st : Int) :
    (dropOffEntry db df st).dropOffRate ≤ 100 := by
  rw [dropOffEntry_rate]
  split
  · rename_i hv
    have hv' : (0 : ℚ) < (stepViewRows db df st : ℚ) := by exact_mod_cast hv
    have hc : (0 : ℚ) ≤ ((dropOffEntry db df st).continued : ℚ) := by positivity
    have h1 : ((stepViewRows db df st : ℚ) - ((dropOffEntry db df st).continued : ℚ)) /
        (stepViewRows db df st : ℚ) ≤ 1 := by
      rw [div_le_one hv']
      linarith
    calc ((stepViewRows db df st : ℚ) - ((dropOffEntry db df st).continued : ℚ)) /
          (stepViewRows db df st : ℚ) * 100 ≤ 1 * 100 :=
        mul_le_mul_of_nonneg_right h1 (by norm_num)
      _ = 100 := by norm_num
  · norm_num

/-- Claim C2 as amended: every dropOffByStep entry's dropOffRate is at most
100 for every data state and window; the lower bound 0 of the original claim
fails on wizard-producible data (see the counterexample). -/
theorem claim_C2_rate_le_100 (db : DB) (p : Option String) (n : Int) :
    ∀ e ∈ (getAnalytics db p n).dropOffByStep, e.dropOffRate ≤ 100 := by
  intro e he
  rw [getAnalytics_dropOff] at he
  simp only [List.mem_cons, List.not_mem_nil, or_false] at he
  rcases he with h | h | h <;> rw [h] <;> exact dropOffEntry_rate_le db _ _

/-- Witness for C2 on the wizard counterexample database. -/
theorem claim_C2_witness :
    dropOffEntry wizardBackDB (dateFilter none 0) 0 ∈
      (getAnalytics wizardBackDB none 0).dropOffByStep ∧
    (dropOffEntry wizardBackDB (dateFilter none 0) 0).dropOffRate ≤ 100 :=
  ⟨by rw [getAnalytics_dropOff]; exact List.mem_cons_self _ _,
   claim_C2_rate_le_100 wizardBackDB none 0 _
     (by rw [getAnalytics_dropOff]; exact List.mem_cons_self _ _)⟩

/-- The original C2 fails: on the well-formed state produced by a wizard
session that goes next, next, back (so step 1 is viewed twice and step 0
once), the drop-off rate at step 0 is -100, outside [0, 100]. -/
theorem claim_C2_counterexample :
    wizardBackDB.events = wizardEvents "s1" [Move.next, Move.next, Move.back] ∧
    (getAnalytics wizardBackDB none 0).dropOffByStep.map (·.dropOffRate) = [-100, 50, 100] ∧
    ((-100 : ℚ) < 0) := by
  refine ⟨rfl, ?_, by norm_num⟩
  have hdf : dateFilter none 0 = none := rfl
  have e0 : (dropOffEntry wizardBackDB none 0).dropOffRate = -100 := by
    rw [dropOffEntry_rate,
      show stepViewRows wizardBackDB none 0 = 1 from by decide,
      show (dropOffEntry wizardBackDB none 0).continued = 2 from by decide]
    norm_num
  have e1 : (dropOffEntry wizardBackDB none 1).dropOffRate = 50 := by
    rw [dropOffEntry_rate,
      show stepViewRows wizardBackDB none 1 = 2 from by decide,
      show (dropOffEntry wizardBackDB none 1).continued = 1 from by decide]
    norm_num
  have e2 : (dropOffEntry wizardBackDB none 2).dropOffRate = 100 := by
    rw [dropOffEntry_rate,
      show stepViewRows wizardBackDB none 2 = 1 from by decide,
      show (dropOffEntry wizardBackDB none 2).continued = 0 from by decide]
    norm_num
  rw [getAnalytics_dropOff, hdf]
  simp only [List.map_cons, List.map_nil, e0, e1, e2]

/-! ### Claim C4 -/

theorem averageTime_eq (db : DB) (p : Option String) (n : Int) :
    (getAnalytics db p n).averageTimeToComplete =
      if ttcValues db (dateFilter p n) = [] then none
      else if ((ttcValues db (dateFilter p n)).map (fun i => (i : ℚ))).sum /
          ((ttcValues db (dateFilter p n)).length : ℚ) = 0 then none
      else some (jsRound (((ttcValues db (dateFilter p n)).map (fun i => (i : ℚ))).sum /
          ((ttcValues db (dateFilter p n)).length : ℚ))) := by
  rw [getAnalytics_averageTime]
  unfold avgTimeToComplete
  by_cases h : ttcValues db (dateFilter p n) = [] <;> simp [h]

/-- Claim C4 as amended: averageTimeToComplete is null exactly when no
in-window session has a non-null timeToComplete OR the values sum to zero
(the code treats a zero average as absent); when the mean is nonzero the
result is the mean rounded half-up to the nearest integer, not the exact
mean. -/
theorem claim_C4_averageTime (db : DB) (p : Option String) (n : Int) :
    ((getAnalytics db p n).averageTimeToComplete = none ↔
      (ttcValues db (dateFilter p n) = [] ∨
        ((ttcValues db (dateFilter p n)).map (fun i => (i : ℚ))).sum = 0)) ∧
    (∀ a : ℚ, avgTimeToComplete db (dateFilter p n) = some a → a ≠ 0 →
      (getAnalytics db p n).averageTimeToComplete = some ⌊a + 1 / 2⌋) := by
  rw [averageTime_eq]
  by_cases h : ttcValues db (dateFilter p n) = []
  · rw [if_pos h]
    refine ⟨by simp [h], ?_⟩
    intro a ha
    unfold avgTimeToComplete at ha
    rw [if_pos h] at ha
    cases ha
  · rw [if_neg h]
    have hL : ((ttcValues db (dateFilter p n)).length : ℚ) ≠ 0 := by
      have h0 : (ttcValues db (dateFilter p n)).length ≠ 0 := by
        simpa [List.length_eq_zero] using h
      exact_mod_cast h0
    constructor
    · by_cases hz : ((ttcValues db (dateFilter p n)).map (fun i => (i : ℚ))).sum /
          ((ttcValues db (dateFilter p n)).length : ℚ) = 0
      · rw [if_pos hz]
        simp only [h, false_or, true_iff]
        exact (div_eq_zero_iff.mp hz).resolve_right hL
      · rw [if_neg hz]
        simp only [h, false_or]
        constructor
        · intro hcon; cases hcon
        · intro hS
          exact absurd (by rw [hS]; simp) hz
    · intro a ha hna
      unfold avgTimeToComplete at ha
      rw [if_neg h] at ha
      have haa := Option.some.inj ha
      rw [if_neg (haa ▸ hna), haa]
      rfl

/-- Witness for C4 at the database with timeToComplete values 1 and 2: the
mean is 3/2 and the result is its rounding, 2. -/
theorem claim_C4_witness :
    (getAnalytics halfTtcDB none 0).averageTimeToComplete = some 2 := by
  have hv : ttcValues halfTtcDB (dateFilter none 0) = [1, 2] := by decide
  have havg : avgTimeToComplete halfTtcDB (dateFilter none 0) = some (3 / 2) := by
    unfold avgTimeToComplete
    rw [hv, if_neg (by simp)]
    norm_num
  have h := (claim_C4_averageTime halfTtcDB none 0).2 (3 / 2) havg (by norm_num)
  rw [h]
  norm_num

/-- The original C4 fails: a session with timeToComplete 0 exists, so the
mean is 0, yet the code returns null rather than 0; and with values 1 and 2
the result is the rounded value 2, not the mean 3/2. -/
theorem claim_C4_counterexample :
    ((getAnalytics zeroTtcDB none 0).averageTimeToComplete = none ∧
      ttcValues zeroTtcDB (dateFilter none 0) = [0] ∧
      avgTimeToComplete zeroTtcDB (dateFilter none 0) = some 0) ∧
    ((getAnalytics halfTtcDB none 0).averageTimeToComplete = some 2 ∧
      avgTimeToComplete halfTtcDB (dateFilter none 0) = some (3 / 2) ∧
      ((2 : ℚ) ≠ 3 / 2)) := by
  have hv0 : ttcValues zeroTtcDB (dateFilter none 0) = [0] := by decide
  have havg0 : avgTimeToComplete zeroTtcDB (dateFilter none 0) = some 0 := by
    unfold avgTimeToComplete
    rw [hv0, if_neg (by simp)]
    norm_num
  have hv2 : ttcValues halfTtcDB (dateFilter none 0) = [1, 2] := by decide
  have havg2 : avgTimeToComplete halfTtcDB (dateFilter none 0) = some (3 / 2) := by
    unfold avgTimeToComplete
    rw [hv2, if_neg (by simp)]
    norm_num
  refine ⟨⟨?_, hv0, havg0⟩, ⟨?_, havg2, by norm_num⟩⟩
  · rw [getAnalytics_averageTime, havg0]
    simp
  · rw [getAnalytics_averageTime, havg2]
    show (if (3 / 2 : ℚ) = 0 then none else some (jsRound (3 / 2))) = some 2
    rw [if_neg (by norm_num)]
    unfold jsRound
    norm_num

/-! ### Claim C6 -/

theorem doubleQuotes_cons_quote (cs : List Char) :
    doubleQuotes ('"' :: cs) = '"' :: '"' :: doubleQuotes cs := by
  simp [doubleQuotes]

theorem doubleQuotes_cons_other (c : Char) (cs : List Char) (h : c ≠ '"') :
    doubleQuotes (c :: cs) = c :: doubleQuotes cs := by
  simp [doubleQuotes, h]

theorem readUnquoted_all (cs : List Char) (h : ∀ c ∈ cs, c ≠ ',') :
    readUnquoted cs = (cs, []) := by
  induction cs with
  | nil => rfl
  | cons c t ih =>
      have hc : c ≠ ',' := h c (List.mem_cons_self c t)
      simp [readUnquoted, hc, ih (fun x hx => h x (List.mem_cons_of_mem c hx))]

theorem readUnquoted_split (cs : List Char) (rest : List Char) (h : ∀ c ∈ cs, c ≠ ',') :
    readUnquoted (cs ++ ',' :: rest) = (cs, ',' :: rest) := by
  induction cs with
  | nil => simp [readUnquoted]
  | cons c t ih =>
      have hc : c ≠ ',' := h c (List.mem_cons_self c t)
      simp [readUnquoted, hc, ih (fun x hx => h x (List.mem_cons_of_mem c hx))]

theorem readQuoted_doubled (cs : List Char) (rest : List Char)
    (h : rest.head? ≠ some '"') :
    readQuoted (doubleQuotes cs ++ '"' :: rest) = (cs, rest) := by
  induction cs with
  | nil =>
      cases rest with
      | nil => exact readQuoted_single_quote
      | cons d ds =>
          have hd : d ≠ '"' := by
            intro hcon
            exact h (by rw [hcon]; rfl)
          exact readQuoted_q_other d ds hd
  | cons c t ih =>
      by_cases hc : c = '"'
      · subst hc
        rw [doubleQuotes_cons_quote, List.cons_append, List.cons_append, readQuoted_qq, ih]
      · rw [doubleQuotes_cons_other c t hc, List.cons_append, readQuoted_other c _ hc, ih]

theorem needsQuoting_false_chars (cs : List Char) (h : needsQuoting cs = false) :
    ∀ c ∈ cs, c ≠ ',' ∧ c ≠ '"' ∧ c ≠ '\n' ∧ c ≠ '\r' := by
  intro c hc
  have hthis := List.any_eq_false.mp h c hc
  simp only [Bool.or_eq_true, beq_iff_eq, not_or] at hthis
  obtain ⟨⟨⟨h1, h2⟩, h3⟩, h4⟩ := hthis
  exact ⟨h1, h2, h3, h4⟩

theorem parseFields_quoted (l : List Char) :
    parseFields ('"' :: l) =
      if (readQuoted l).2.head? = some ',' then
        (readQuoted l).1 :: parseFields (readQuoted l).2.tail
      else [(readQuoted l).1] := by
  rw [parseFields.eq_def]
  simp

theorem parseFields_unquoted (l : List Char) (h : ¬(l.head? = some '"')) :
    parseFields l =
      if (readUnquoted l).2.head? = some ',' then
        (readUnquoted l).1 :: parseFields (readUnquoted l).2.tail
      else [(readUnquoted l).1] := by
  rw [parseFields.eq_def, if_neg h]

theorem parseFields_escape_end (cs : List Char) : parseFields (charEscape cs) = [cs] := by
  by_cases hq : needsQuoting cs
  · unfold charEscape
    rw [if_pos hq,
      show '"' :: doubleQuotes cs ++ ['"'] = '"' :: (doubleQuotes cs ++ '"' :: []) from by simp,
      parseFields_quoted, readQuoted_doubled cs [] (by simp)]
    simp
  · unfold charEscape
    have hchars := needsQuoting_false_chars cs (by simpa using hq)
    have hhead : ¬(cs.head? = some '"') := by
      cases cs with
      | nil => simp
      | cons c t =>
          simp only [List.head?_cons, Option.some.injEq]
          intro hcon
          exact (hchars c (List.mem_cons_self c t)).2.1 hcon
    rw [if_neg hq, parseFields_unquoted cs hhead,
      readUnquoted_all cs (fun c hc => (hchars c hc).1)]
    simp

theorem parseFields_escape_comma (cs : List Char) (r2 : List Char) :
    parseFields (charEscape cs ++ ',' :: r2) = cs :: parseFields r2 := by
  by_cases hq : needsQuoting cs
  · unfold charEscape
    rw [if_pos hq,
      show ('"' :: doubleQuotes cs ++ ['"']) ++ ',' :: r2 =
        '"' :: (doubleQuotes cs ++ '"' :: ',' :: r2) from by simp,
      parseFields_quoted, readQuoted_doubled cs (',' :: r2) (by simp)]
    simp
  · unfold charEscape
    have hchars := needsQuoting_false_chars cs (by simpa using hq)
    have hhead : ¬((cs ++ ',' :: r2).head? = some '"') := by
      cases cs with
      | nil => simp
      | cons c t =>
          simp only [List.cons_append, List.head?_cons, Option.some.injEq]
          intro hcon
          exact (hchars c (List.mem_cons_self c t)).2.1 hcon
    rw [if_neg hq, parseFields_unquoted _ hhead,
      readUnquoted_split cs r2 (fun c hc => (hchars c hc).1)]
    simp

theorem parseFields_charJoin : ∀ (row : List (List Char)), row ≠ [] →
    parseFields (charJoin (row.map charEscape)) = row
  | [], h => absurd rfl h
  | [f], _ => by
      rw [List.map_cons, List.map_nil]
      exact parseFields_escape_end f
  | f :: g :: t, _ => by
      rw [List.map_cons, List.map_cons,
        show charJoin (charEscape f :: charEscape g :: (t.map charEscape)) =
          charEscape f ++ ',' :: charJoin (charEscape g :: (t.map charEscape)) from rfl,
        parseFields_escape_comma, ← List.map_cons charEscape g t,
        parseFields_charJoin (g :: t) (by simp)]

theorem joinRow_data : ∀ (l : List String),
    (joinRow l).data = charJoin (l.map String.data)
  | [] => rfl
  | [f] => rfl
  | f :: g :: t => by
      show (f ++ "," ++ joinRow (g :: t)).data =
        f.data ++ ',' :: charJoin ((g :: t).map String.data)
      rw [String.data_append, String.data_append, joinRow_data (g :: t),
        show ",".data = [','] from by decide]
      simp

theorem escapeCSVField_some_data (s : String) :
    (escapeCSVField (some s)).data = charEscape s.data := by
  have ht : s.toList = s.data := rfl
  unfold escapeCSVField charEscape
  simp only [Option.getD_some, ht]
  by_cases hq : needsQuoting s.data = true
  · rw [if_pos hq, if_pos hq]
  · rw [if_neg hq, if_neg hq]

theorem needsQuoting_iff (cs : List Char) :
    needsQuoting cs = true ↔ (',' ∈ cs ∨ '"' ∈ cs ∨ '\n' ∈ cs ∨ '\r' ∈ cs) := by
  simp only [needsQuoting, List.any_eq_true, Bool.or_eq_true, beq_iff_eq]
  constructor
  · rintro ⟨c, hc, ((h | h) | h) | h⟩ <;> subst h <;> tauto
  · rintro (h | h | h | h) <;> exact ⟨_, h, by simp⟩

theorem charEscape_head_quote (cs : List Char) :
    (charEscape cs).head? = some '"' ↔ needsQuoting cs = true := by
  unfold charEscape
  by_cases hq : needsQuoting cs
  · simp [hq]
  · have hfalse : needsQuoting cs = false := by simpa using hq
    rw [if_neg hq]
    simp only [hfalse, Bool.false_eq_true, iff_false]
    intro hcon
    cases hl : cs with
    | nil => rw [hl] at hcon; cases hcon
    | cons c t =>
        rw [hl] at hcon
        simp only [List.head?_cons, Option.some.injEq] at hcon
        refine (needsQuoting_false_chars cs hfalse '"' ?_).2.1 rfl
        rw [hl, ← hcon]
        exact List.mem_cons_self _ _

/-- Claim C6: escapeCSVField wraps a field in quotes (doubling embedded
quotes) exactly when it contains a comma, quote, line feed or carriage
return, and the escaping is RFC 4180 correct: parsing the comma-joined row
of escaped fields recovers every field exactly — in particular a submission
whose additionalInfo contains a comma and a quote round-trips. -/
theorem claim_C6_csv_roundtrip :
    (∀ s : String, (escapeCSVField (some s)).data.head? = some '"' ↔
      (',' ∈ s.data ∨ '"' ∈ s.data ∨ '\n' ∈ s.data ∨ '\r' ∈ s.data)) ∧
    (∀ row : List String, row ≠ [] →
      parseCSVRow (joinRow (row.map (fun f => escapeCSVField (some f)))) = row) := by
  constructor
  · intro s
    rw [← needsQuoting_iff, escapeCSVField_some_data]
    exact charEscape_head_quote s.data
  · intro row hne
    show (parseFields (joinRow (row.map fun f => escapeCSVField (some f))).data).map String.mk
      = row
    rw [joinRow_data, List.map_map,
      show (String.data ∘ fun f => escapeCSVField (some f)) =
        fun f => charEscape f.data from funext fun f => escapeCSVField_some_data f,
      show (fun (f : String) => charEscape f.data) = charEscape ∘ String.data from rfl,
      ← List.map_map,
      parseFields_charJoin (row.map String.data) (by simpa using hne),
      List.map_map,
      show (String.mk ∘ String.data) = id from funext fun s => rfl,
      List.map_id]

/-- Witness for C6 on a concrete submission row whose additionalInfo
contains a comma and a quote: the generated CSV row parses back to the
original fields exactly. -/
theorem claim_C6_witness :
    parseCSVRow (joinRow
      (["Ada", "ada@ex.co", "Friend", "", "Hello, \"world\"", "Oct 11, 2026 3:04 PM"].map
        (fun f => escapeCSVField (some f)))) =
      ["Ada", "ada@ex.co", "Friend", "", "Hello, \"world\"", "Oct 11, 2026 3:04 PM"] :=
  claim_C6_csv_roundtrip.2
    ["Ada", "ada@ex.co", "Friend", "", "Hello, \"world\"", "Oct 11, 2026 3:04 PM"] (by simp)

end InboundForm
